import Mathlib

/-!
Shallow embedding of the data-pipeline monitoring dashboard core
(`src/models/database.py`, `src/collectors/metrics_collector.py`,
`src/api/routes.py`).

Modelling conventions:
* timestamps are integers (whole seconds since an arbitrary epoch), so
  `datetime` subtraction with `.total_seconds()` becomes integer
  subtraction; derived ratios (success rate, average duration) are
  rationals, as the source computes them with exact `/` on the counts;
* the persistence store is an explicit list of rows, passed in and
  returned; a SQL `COUNT` is a list length,
  `SUM(CAST(status == 'success' AS INTEGER))` is `none` on an empty row
  set and the indicator count otherwise, and `AVG(duration_seconds)`
  ignores `NULL` durations and is `none` when no non-`NULL` duration
  exists (SQL aggregate semantics);
* Python truthiness tests (`x or 0`, `float(a) if a else None`,
  `msg[:1000] if msg else None`) are modelled by the corresponding
  matches; in particular `0.0` and the empty string are falsy;
* Python `str.strip()` is `pyStrip` (drop whitespace at both ends);
* `round(x, 2)` is modelled as round-half-to-even at two decimals on ℚ;
* a raised `ValueError` becomes `Except.error` with a constructor per
  distinct message; fault-tolerant gauge reads become `Option ℚ` inputs
  (`none` models a read that raises inside the provider).
-/

/-- Decidable equality for `Except`, so concrete recorder results can be
settled by `decide`. -/
instance {ε α : Type} [DecidableEq ε] [DecidableEq α] :
    DecidableEq (Except ε α) := fun x y =>
  match x, y with
  | .ok a, .ok b =>
      if h : a = b then .isTrue (by rw [h]) else .isFalse (by simp [h])
  | .error a, .error b =>
      if h : a = b then .isTrue (by rw [h]) else .isFalse (by simp [h])
  | .ok _, .error _ => .isFalse (by simp)
  | .error _, .ok _ => .isFalse (by simp)

/-- Python `str.strip()`: remove whitespace from both ends of a string. -/
def pyStrip (s : String) : String :=
  ⟨((s.data.dropWhile Char.isWhitespace).reverse.dropWhile
      Char.isWhitespace).reverse⟩

/-- Row of the `pipeline_executions` table (src/models/database.py). -/
structure PipelineExecution where
  id : Nat
  pipeline_name : String
  status : String
  start_time : ℤ
  end_time : Option ℤ
  duration_seconds : Option ℤ
  records_processed : Int
  error_message : Option String
deriving Repr, DecidableEq

/-- Row of the `data_quality_metrics` table (src/models/database.py). -/
structure DataQualityMetric where
  id : Nat
  pipeline_name : String
  metric_name : String
  metric_value : ℚ
  threshold : ℚ
  passed : Bool
  timestamp : ℤ
deriving Repr, DecidableEq

/-- Row of the `system_metrics` table (src/models/database.py). -/
structure SystemMetric where
  metric_type : String
  metric_value : ℚ
  unit : String
  timestamp : ℤ
deriving Repr, DecidableEq

/-- One constructor per distinct `ValueError` message raised by
`MetricsCollector` (src/collectors/metrics_collector.py). -/
inductive RecordError where
  | emptyName
  | invalidStatus
  | endBeforeStart
  | negativeRecords
  | negativeDuration
  | emptyMetricName
  | valueOutOfRange
  | thresholdOutOfRange
deriving Repr, DecidableEq

/-- The status whitelist checked by `record_pipeline_execution`
(metrics_collector.py line 67). -/
def validStatus (s : String) : Bool :=
  s == "success" || s == "failed" || s == "running"

/-- `MetricsCollector.record_pipeline_execution`
(src/collectors/metrics_collector.py lines 36-111): validations in source
order, then duration derivation, then the single-row insert.  The returned
pair is the created row and the post-insert store; an `Except.error` models
a raised `ValueError`, in which case the store is untouched. -/
def record_pipeline_execution (store : List PipelineExecution)
    (pipeline_name : String) (status : String) (start_time : ℤ)
    (end_time : Option ℤ) (records_processed : Int)
    (error_message : Option String) :
    Except RecordError (PipelineExecution × List PipelineExecution) :=
  if pyStrip pipeline_name = "" then .error .emptyName
  else if ¬ validStatus status then .error .invalidStatus
  else if (match end_time with
           | some e => decide (e < start_time)
           | none => false) then .error .endBeforeStart
  else if records_processed < 0 then .error .negativeRecords
  else
    let duration_seconds : Option ℤ :=
      match end_time with
      | some e => some (e - start_time)
      | none => none
    if (match duration_seconds with
        | some d => decide (d < 0)
        | none => false) then .error .negativeDuration
    else
      let execution : PipelineExecution :=
        { id := store.length + 1
          pipeline_name := pyStrip pipeline_name
          status := status
          start_time := start_time
          end_time := end_time
          duration_seconds := duration_seconds
          records_processed := records_processed
          error_message :=
            match error_message with
            | some m => if m = "" then none else some (m.take 1000)
            | none => none }
      .ok (execution, store ++ [execution])

/-- `MetricsCollector.record_data_quality_metric`
(src/collectors/metrics_collector.py lines 113-171): validations in source
order, derivation `passed = metric_value >= threshold`, single-row insert. -/
def record_data_quality_metric (store : List DataQualityMetric) (now : ℤ)
    (pipeline_name : String) (metric_name : String) (metric_value : ℚ)
    (threshold : ℚ) :
    Except RecordError (DataQualityMetric × List DataQualityMetric) :=
  if pyStrip pipeline_name = "" then .error .emptyName
  else if pyStrip metric_name = "" then .error .emptyMetricName
  else if metric_value < 0 ∨ 1 < metric_value then .error .valueOutOfRange
  else if threshold < 0 ∨ 1 < threshold then .error .thresholdOutOfRange
  else
    let passed := decide (threshold ≤ metric_value)
    let metric : DataQualityMetric :=
      { id := store.length + 1
        pipeline_name := pyStrip pipeline_name
        metric_name := pyStrip metric_name
        metric_value := metric_value
        threshold := threshold
        passed := passed
        timestamp := now }
    .ok (metric, store ++ [metric])

/-- The dictionary returned by `MetricsCollector.collect_system_metrics`. -/
structure SystemSnapshot where
  cpu : ℚ
  memory : ℚ
  disk : ℚ
  timestamp : ℤ
deriving Repr, DecidableEq

/-- `MetricsCollector.collect_system_metrics`
(src/collectors/metrics_collector.py lines 173-238).  Each provider read is
an `Option ℚ` (`none` models the read raising); a successful read whose
value is outside [0,100] raises inside the per-read `try` and is caught,
so both cases fall back to `0.0`.  The three rows are inserted as one
batch and the gauge dictionary plus collection timestamp is returned. -/
def collect_system_metrics (store : List SystemMetric)
    (cpuRead memoryRead diskRead : Option ℚ) (now : ℤ) :
    SystemSnapshot × List SystemMetric :=
  let cpu_percent : ℚ :=
    match cpuRead with
    | some v => if v < 0 ∨ 100 < v then 0 else v
    | none => 0
  let memory_percent : ℚ :=
    match memoryRead with
    | some v => if v < 0 ∨ 100 < v then 0 else v
    | none => 0
  let disk_percent : ℚ :=
    match diskRead with
    | some v => if v < 0 ∨ 100 < v then 0 else v
    | none => 0
  let metrics : List SystemMetric :=
    [ { metric_type := "cpu", metric_value := cpu_percent, unit := "%",
        timestamp := now },
      { metric_type := "memory", metric_value := memory_percent, unit := "%",
        timestamp := now },
      { metric_type := "disk", metric_value := disk_percent, unit := "%",
        timestamp := now } ]
  ({ cpu := cpu_percent, memory := memory_percent, disk := disk_percent,
     timestamp := now },
   store ++ metrics)

/-- Cutoff used by every windowed route handler (routes.py:
`datetime.utcnow() - timedelta(days=days)`), at one-second granularity. -/
def cutoffDate (now : ℤ) (days : ℕ) : ℤ := now - days * 86400

/-- Window filter used by the routes: `start_time >= cutoff_date`. -/
def inWindow (now : ℤ) (days : ℕ) (e : PipelineExecution) : Bool :=
  decide (cutoffDate now days ≤ e.start_time)

/-- `SELECT DISTINCT pipeline_name` over the whole table
(routes.py line 88 and line 369), in order of first appearance. -/
def distinctNames (execs : List PipelineExecution) : List String :=
  execs.foldl
    (fun acc e => if e.pipeline_name ∈ acc then acc else acc ++ [e.pipeline_name])
    []

/-- The `ORDER BY start_time DESC` relation used by the routes. -/
def startDesc (a b : PipelineExecution) : Prop :=
  b.start_time ≤ a.start_time

instance : DecidableRel startDesc := fun a b =>
  inferInstanceAs (Decidable (b.start_time ≤ a.start_time))

instance : IsTotal PipelineExecution startDesc :=
  ⟨fun a b => le_total b.start_time a.start_time⟩

instance : IsTrans PipelineExecution startDesc :=
  ⟨fun _ _ _ h1 h2 => le_trans h2 h1⟩

/-- The latest execution of a pipeline: `ORDER BY start_time DESC` then
`.first()` (routes.py lines 93-95). -/
def latestExecution (execs : List PipelineExecution) (name : String) :
    Option PipelineExecution :=
  (List.insertionSort startDesc
    (execs.filter (fun e => e.pipeline_name == name))).head?

/-- One element of the `pipeline_list` built by `get_pipelines`
(routes.py lines 107-115). -/
structure PipelineStatsEntry where
  name : String
  latest_status : String
  latest_execution_time : Option ℤ
  total_runs : Nat
  success_count : Nat
  success_rate : ℚ
  avg_duration_seconds : Option ℚ
deriving Repr, DecidableEq

/-- The per-pipeline body of the loop in `get_pipelines`
(routes.py lines 91-115): the stats query counts the windowed rows,
sums the success indicator (SQL `SUM` is `NULL` on an empty row set),
and averages `duration_seconds` over the windowed rows whose duration is
not `NULL` — with no status filter.  The dictionary then applies the
Python truthiness fallbacks `or 0` and `float(a) if a else None`. -/
def pipelineStatsFor (execs : List PipelineExecution) (now : ℤ) (days : ℕ)
    (name : String) : PipelineStatsEntry :=
  let latest := latestExecution execs name
  let filtered :=
    execs.filter (fun e => e.pipeline_name == name && inWindow now days e)
  let total_runs := filtered.length
  let success_count_raw : Option ℕ :=
    if filtered.isEmpty then none
    else some (filtered.countP (fun e => e.status == "success"))
  let durations : List ℤ := filtered.filterMap (fun e => e.duration_seconds)
  let avg_duration_raw : Option ℚ :=
    if durations.isEmpty then none
    else some ((durations.sum : ℚ) / (durations.length : ℚ))
  { name := name
    latest_status := match latest with | some l => l.status | none => "unknown"
    latest_execution_time := latest.map (fun l => l.start_time)
    total_runs := total_runs
    success_count := success_count_raw.getD 0
    success_rate :=
      if 0 < total_runs then
        ((success_count_raw.getD 0 : ℚ) / (total_runs : ℚ)) * 100
      else 0
    avg_duration_seconds :=
      match avg_duration_raw with
      | none => none
      | some v => if v = 0 then none else some v }

/-- `get_pipelines` (routes.py lines 62-126): one stats entry per distinct
pipeline name ever recorded. -/
def get_pipelines (execs : List PipelineExecution) (now : ℤ) (days : ℕ) :
    List PipelineStatsEntry :=
  (distinctNames execs).map (pipelineStatsFor execs now days)

/-- One element of the execution list returned by
`get_pipeline_executions` (routes.py lines 174-182). -/
structure ExecutionRow where
  id : Nat
  status : String
  start_time : ℤ
  end_time : Option ℤ
  duration_seconds : Option ℤ
  records_processed : Int
  error_message : Option String
deriving Repr, DecidableEq

/-- `get_pipeline_executions` (routes.py lines 136-199): filter by name and
window, `ORDER BY start_time DESC`, cap at `limit`, and map rows to the
response shape.  The read-only store is returned unchanged alongside the
result, mirroring the session that is closed without any write. -/
def get_pipeline_executions (store : List PipelineExecution)
    (pipeline_name : String) (now : ℤ) (days limit : ℕ) :
    List ExecutionRow × List PipelineExecution :=
  let matching :=
    store.filter (fun e => e.pipeline_name == pipeline_name && inWindow now days e)
  let ordered := List.insertionSort startDesc matching
  (((ordered.take limit).map (fun e =>
      { id := e.id, status := e.status, start_time := e.start_time,
        end_time := e.end_time, duration_seconds := e.duration_seconds,
        records_processed := e.records_processed,
        error_message := e.error_message })),
   store)

/-- Python `round(x, 2)`: round half to even at two decimal places. -/
def pyRound2 (q : ℚ) : ℚ :=
  let x := q * 100
  let f : ℤ := ⌊x⌋
  let frac : ℚ := x - (f : ℚ)
  let n : ℤ :=
    if 1/2 < frac then f + 1
    else if frac < 1/2 then f
    else if f % 2 = 0 then f else f + 1
  (n : ℚ) / 100

/-- The dictionary returned by `get_metrics_summary`
(routes.py lines 371-378). -/
structure MetricsSummary where
  total_executions : Nat
  success_count : Nat
  success_rate : ℚ
  avg_duration_seconds : Option ℚ
  pipeline_count : Nat
  period_days : Nat
deriving Repr, DecidableEq

/-- `get_metrics_summary` (routes.py lines 328-394): windowed total and
success counts, zero-safe success rate rounded to two decimals, average
duration of the windowed *successful* rows whose duration is not `NULL`,
and the all-time distinct pipeline-name count (that one query has no
window filter, routes.py line 369). -/
def get_metrics_summary (execs : List PipelineExecution) (now : ℤ)
    (days : ℕ) : MetricsSummary :=
  let total_executions := (execs.filter (inWindow now days)).length
  let success_count :=
    (execs.filter (fun e => inWindow now days e && e.status == "success")).length
  let success_rate : ℚ :=
    if 0 < total_executions then
      ((success_count : ℚ) / (total_executions : ℚ)) * 100
    else 0
  let success_durations : List ℤ :=
    (execs.filter (fun e => inWindow now days e && e.status == "success")).filterMap
      (fun e => e.duration_seconds)
  let avg_duration_raw : Option ℚ :=
    if success_durations.isEmpty then none
    else some ((success_durations.sum : ℚ) / (success_durations.length : ℚ))
  let pipeline_count := (distinctNames execs).length
  { total_executions := total_executions
    success_count := success_count
    success_rate := pyRound2 success_rate
    avg_duration_seconds :=
      match avg_duration_raw with
      | none => none
      | some v => if v = 0 then none else some v
    pipeline_count := pipeline_count
    period_days := days }

/-- The store of the spec scenario: three executions of `etl_pipeline`
with statuses `[success, failed, success]` and durations `[100, 50, 200]`
seconds, all inside the 7-day window of `now = 604800`
(`cutoffDate 604800 7 = 0`). -/
def scenarioStore : List PipelineExecution :=
  [ ⟨1, "etl_pipeline", "success", 1000, some 1100, some 100, 0, none⟩,
    ⟨2, "etl_pipeline", "failed", 2000, some 2050, some 50, 0, none⟩,
    ⟨3, "etl_pipeline", "success", 3000, some 3200, some 200, 0, none⟩ ]

/-- Full evaluation of `get_pipelines` on the scenario store: the stats
query has no status filter, so the average runs over all three durations
(350/3), and the success rate is not rounded (200/3). -/
theorem get_pipelines_scenario_eval :
    get_pipelines scenarioStore 604800 7 =
      [{ name := "etl_pipeline", latest_status := "success",
         latest_execution_time := some 3000, total_runs := 3,
         success_count := 2, success_rate := 200/3,
         avg_duration_seconds := some (350/3) }] := by
  have h1 : distinctNames scenarioStore = ["etl_pipeline"] := by decide
  have hlat : latestExecution scenarioStore "etl_pipeline" =
      some ⟨3, "etl_pipeline", "success", 3000, some 3200, some 200, 0, none⟩ := by
    decide
  have hfilt : scenarioStore.filter
      (fun e => e.pipeline_name == "etl_pipeline" && inWindow 604800 7 e) =
      scenarioStore := by decide
  have hc : List.countP (fun e => e.status == "success") scenarioStore = 2 := by
    decide
  have hd : List.filterMap (fun e => e.duration_seconds) scenarioStore =
      ([100, 50, 200] : List ℤ) := by decide
  have hlen : scenarioStore.length = 3 := by decide
  have hne : ¬ scenarioStore = [] := by decide
  simp only [get_pipelines, h1, List.map_cons, List.map_nil, pipelineStatsFor,
    hlat, hfilt, hc, hd, hlen, List.isEmpty_cons, List.isEmpty_iff, hne,
    if_false, Option.getD_some, List.sum_cons, List.sum_nil, List.length_cons,
    List.length_nil]
  norm_num [PipelineStatsEntry.mk.injEq]

/-- C1, counterexample: on the spec scenario — statuses
`[success, failed, success]`, durations `[100, 50, 200]`, all in the
window — `get_pipelines` does NOT report `avgDuration = 150` (the average
over successful runs only), and does not report `successRate = 66.67`:
the stats query averages `duration_seconds` over all three rows (350/3)
and the per-pipeline success rate is never rounded (200/3). -/
theorem C1_counterexample :
    (get_pipelines scenarioStore 604800 7).map
        (fun s => s.avg_duration_seconds) ≠ [some 150] ∧
    (get_pipelines scenarioStore 604800 7).map
        (fun s => s.success_rate) ≠ [(6667/100 : ℚ)] := by
  rw [get_pipelines_scenario_eval]
  constructor
  · intro h
    simp only [List.map_cons, List.map_nil, List.cons.injEq] at h
    have := h.1
    rw [Option.some_inj] at this
    norm_num at this
  · intro h
    simp only [List.map_cons, List.map_nil, List.cons.injEq] at h
    have := h.1
    norm_num at this

/-- C1, amended: for the scenario store, `get_pipelines` reports
`totalRuns = 3`, `successCount = 2`, an unrounded
`successRate = 200/3 ≈ 66.67`, and an average duration over all windowed
executions with a known duration regardless of status,
`avgDuration = 350/3 ≈ 116.67`. -/
theorem C1_amended :
    get_pipelines scenarioStore 604800 7 =
      [{ name := "etl_pipeline", latest_status := "success",
         latest_execution_time := some 3000, total_runs := 3,
         success_count := 2, success_rate := 200/3,
         avg_duration_seconds := some (350/3) }] :=
  get_pipelines_scenario_eval

/-- C2: for every otherwise-valid input (non-empty name, whitelisted
status, non-negative records count) with both timestamps present and
`end ≥ start`, `record_pipeline_execution` succeeds and stores
`duration = end - start` seconds, which is non-negative; with `end`
absent it succeeds and stores no duration. -/
theorem C2_duration_derivation (store : List PipelineExecution)
    (name status : String) (start e : ℤ) (rp : Int) (msg : Option String)
    (hname : ¬ pyStrip name = "") (hstatus : validStatus status = true)
    (hrp : 0 ≤ rp) (hend : start ≤ e) :
    ((record_pipeline_execution store name status start (some e) rp msg).toOption.map
        (fun p => p.1.duration_seconds) = some (some (e - start))) ∧
    0 ≤ e - start ∧
    ((record_pipeline_execution store name status start none rp msg).toOption.map
        (fun p => p.1.duration_seconds) = some none) := by
  have h3 : ¬ (e < start) := not_lt.mpr hend
  have h4 : ¬ (rp < 0) := not_lt.mpr hrp
  have h5 : ¬ (e - start < 0) := by omega
  refine ⟨?_, by omega, ?_⟩
  · simp only [record_pipeline_execution, if_neg hname, hstatus,
      not_true_eq_false, if_false, decide_eq_true_eq, if_neg h3, if_neg h4,
      if_neg h5, Except.toOption]
    rfl
  · simp only [record_pipeline_execution, if_neg hname, hstatus,
      not_true_eq_false, if_false, Bool.false_eq_true, if_neg h4,
      Except.toOption]
    rfl

/-- C2, witness: recording an execution of pipeline `p` with
`start = 0`, `end = 100` stores duration `100 - 0 = 100`; with no end
time it stores no duration. -/
theorem C2_witness :
    ((record_pipeline_execution [] "p" "success" 0 (some 100) 0 none).toOption.map
        (fun p => p.1.duration_seconds) = some (some (100 - 0))) ∧
    0 ≤ (100:ℤ) - 0 ∧
    ((record_pipeline_execution [] "p" "success" 0 none 0 none).toOption.map
        (fun p => p.1.duration_seconds) = some none) :=
  C2_duration_derivation [] "p" "success" 0 100 0 none (by decide) (by decide)
    (by decide) (by decide)

/-- C3, counterexample: the claim quantifies over *every* input with
`end < start`, but the empty-name check runs first
(metrics_collector.py line 64 before line 76): with an empty pipeline
name and `end = 50 < 100 = start` the call fails with the empty-name
error, not `EndBeforeStart`. -/
theorem C3_counterexample :
    (50 : ℤ) < 100 ∧
    record_pipeline_execution [] "" "success" 100 (some 50) 0 none =
      .error .emptyName ∧
    ¬ record_pipeline_execution [] "" "success" 100 (some 50) 0 none =
      .error .endBeforeStart := by decide

/-- C3, amended: for every input that passes the earlier validations
(non-empty name, whitelisted status) and has both timestamps with
`end < start`, `record_pipeline_execution` fails with `EndBeforeStart`;
the error is returned before the store is touched, so no new store is
produced and the record set is unchanged. -/
theorem C3_end_before_start (store : List PipelineExecution)
    (name status : String) (start e : ℤ) (rp : Int) (msg : Option String)
    (hname : ¬ pyStrip name = "") (hstatus : validStatus status = true)
    (hlt : e < start) :
    record_pipeline_execution store name status start (some e) rp msg =
      .error .endBeforeStart := by
  simp only [record_pipeline_execution, if_neg hname, hstatus,
    not_true_eq_false, if_false, decide_eq_true_eq, if_pos hlt]

/-- C3, witness: recording an execution of pipeline `p` with
`start = 100`, `end = 50` fails with `EndBeforeStart` and yields no
updated store. -/
theorem C3_witness :
    record_pipeline_execution [] "p" "success" 100 (some 50) 0 none =
      .error .endBeforeStart :=
  C3_end_before_start [] "p" "success" 100 50 0 none (by decide) (by decide)
    (by decide)

/-- C10: the negative-duration error branch of
`record_pipeline_execution` (metrics_collector.py lines 87-88) is
unreachable — no input whatsoever makes the function return the
negative-duration error, because any input with `end < start` is
rejected as `EndBeforeStart` first, and otherwise `end - start ≥ 0`. -/
theorem C10_negative_duration_unreachable (store : List PipelineExecution)
    (name status : String) (start : ℤ) (endt : Option ℤ) (rp : Int)
    (msg : Option String) :
    record_pipeline_execution store name status start endt rp msg ≠
      .error .negativeDuration := by
  unfold record_pipeline_execution
  cases endt with
  | none =>
    split_ifs <;> simp_all
  | some e =>
    split_ifs <;> simp_all

/-- Helper: Python `round(0, 2) = 0`. -/
theorem pyRound2_zero : pyRound2 0 = 0 := by
  norm_num [pyRound2]

/-- C4: for every valid input (non-empty names, value and threshold in
[0,1]), `record_data_quality_metric` stores
`passed = (value ≥ threshold)`; the boundary is inclusive — a value equal
to the threshold passes, a value strictly below fails. -/
theorem C4_passed_derivation (store : List DataQualityMetric) (now : ℤ)
    (pn mn : String) (v t : ℚ) (hpn : ¬ pyStrip pn = "")
    (hmn : ¬ pyStrip mn = "") (hv0 : 0 ≤ v) (hv1 : v ≤ 1) (ht0 : 0 ≤ t)
    (ht1 : t ≤ 1) :
    ((record_data_quality_metric store now pn mn v t).toOption.map
        (fun p => p.1.passed) = some (decide (t ≤ v))) ∧
    (v = t → (record_data_quality_metric store now pn mn v t).toOption.map
        (fun p => p.1.passed) = some true) ∧
    (v < t → (record_data_quality_metric store now pn mn v t).toOption.map
        (fun p => p.1.passed) = some false) := by
  have h1 : ¬ (v < 0 ∨ 1 < v) := not_or.mpr ⟨not_lt.mpr hv0, not_lt.mpr hv1⟩
  have h2 : ¬ (t < 0 ∨ 1 < t) := not_or.mpr ⟨not_lt.mpr ht0, not_lt.mpr ht1⟩
  have hmain : (record_data_quality_metric store now pn mn v t).toOption.map
      (fun p => p.1.passed) = some (decide (t ≤ v)) := by
    simp only [record_data_quality_metric, if_neg hpn, if_neg hmn, if_neg h1,
      if_neg h2, Except.toOption]
    rfl
  refine ⟨hmain, ?_, ?_⟩
  · intro hveq
    rw [hmain, hveq]
    simp
  · intro hvlt
    rw [hmain]
    simp [not_le.mpr hvlt]

/-- C4, witness: `recordQualityMetric("p1","completeness",0.95,0.95)`
passes (inclusive boundary) and
`recordQualityMetric("p1","completeness",0.90,0.95)` fails. -/
theorem C4_witness :
    ((record_data_quality_metric [] 0 "p1" "completeness" (mkRat 95 100)
        (mkRat 95 100)).toOption.map (fun p => p.1.passed) = some true) ∧
    ((record_data_quality_metric [] 0 "p1" "completeness" (mkRat 9 10)
        (mkRat 95 100)).toOption.map (fun p => p.1.passed) = some false) :=
  ⟨(C4_passed_derivation [] 0 "p1" "completeness" (mkRat 95 100)
      (mkRat 95 100) (by decide) (by decide) (by decide) (by decide)
      (by decide) (by decide)).2.1 rfl,
   (C4_passed_derivation [] 0 "p1" "completeness" (mkRat 9 10)
      (mkRat 95 100) (by decide) (by decide) (by decide) (by decide)
      (by decide) (by decide)).2.2 (by decide)⟩

/-- C5: with zero executions inside the window, `pipelineStatsFor`
reports `totalRuns = 0`, `successRate = 0`, `avgDuration = null`, and
`get_metrics_summary` reports `total = 0`, `successRate = 0`,
`avgDuration = null`.  In both, the success-rate division is guarded by
`if totalRuns > 0` (routes.py lines 113 and 360), so the `0` is the
guard's else-branch and no division by zero is ever evaluated. -/
theorem C5_zero_window_safe (execs : List PipelineExecution) (now : ℤ)
    (days : ℕ) :
    (∀ name,
      execs.filter (fun e => e.pipeline_name == name && inWindow now days e) = [] →
      (pipelineStatsFor execs now days name).total_runs = 0 ∧
      (pipelineStatsFor execs now days name).success_rate = 0 ∧
      (pipelineStatsFor execs now days name).avg_duration_seconds = none) ∧
    (execs.filter (inWindow now days) = [] →
      (get_metrics_summary execs now days).total_executions = 0 ∧
      (get_metrics_summary execs now days).success_rate = 0 ∧
      (get_metrics_summary execs now days).avg_duration_seconds = none) := by
  constructor
  · intro name h
    refine ⟨?_, ?_, ?_⟩ <;> simp [pipelineStatsFor, h]
  · intro h
    have hconj : execs.filter
        (fun e => inWindow now days e && e.status == "success") = [] := by
      rw [List.filter_eq_nil_iff] at h ⊢
      intro e he
      have := h e he
      simp_all
    refine ⟨?_, ?_, ?_⟩ <;>
      simp [get_metrics_summary, h, hconj, pyRound2_zero]

/-- C5, witness: a store whose only execution started before the 7-day
window cutoff yields zero stats and null average for that pipeline and
for the summary, with no division error. -/
theorem C5_witness :
    ((pipelineStatsFor [⟨1, "p", "success", -1, none, none, 0, none⟩]
        604800 7 "p").total_runs = 0 ∧
     (pipelineStatsFor [⟨1, "p", "success", -1, none, none, 0, none⟩]
        604800 7 "p").success_rate = 0 ∧
     (pipelineStatsFor [⟨1, "p", "success", -1, none, none, 0, none⟩]
        604800 7 "p").avg_duration_seconds = none) ∧
    ((get_metrics_summary [⟨1, "p", "success", -1, none, none, 0, none⟩]
        604800 7).total_executions = 0 ∧
     (get_metrics_summary [⟨1, "p", "success", -1, none, none, 0, none⟩]
        604800 7).success_rate = 0 ∧
     (get_metrics_summary [⟨1, "p", "success", -1, none, none, 0, none⟩]
        604800 7).avg_duration_seconds = none) :=
  ⟨(C5_zero_window_safe [⟨1, "p", "success", -1, none, none, 0, none⟩]
      604800 7).1 "p" (by decide),
   (C5_zero_window_safe [⟨1, "p", "success", -1, none, none, 0, none⟩]
      604800 7).2 (by decide)⟩

/-- C6: for every behaviour of the three provider reads (`none` models a
read that raises), `collect_system_metrics` appends exactly the three
gauge rows (cpu, memory, disk) as one batch, returns the snapshot with
the collection timestamp, and each gauge is the read value when it is in
[0,100], and `0.0` when the read failed or was out of range — a bad read
never aborts the collection. -/
theorem C6_three_gauges (store : List SystemMetric) (c m d : Option ℚ)
    (now : ℤ) :
    ((collect_system_metrics store c m d now).2 =
      store ++
        [⟨"cpu", (collect_system_metrics store c m d now).1.cpu, "%", now⟩,
         ⟨"memory", (collect_system_metrics store c m d now).1.memory, "%", now⟩,
         ⟨"disk", (collect_system_metrics store c m d now).1.disk, "%", now⟩]) ∧
    ((collect_system_metrics store c m d now).2.length = store.length + 3) ∧
    ((collect_system_metrics store c m d now).1.timestamp = now) ∧
    (c = none → (collect_system_metrics store c m d now).1.cpu = 0) ∧
    (∀ v, c = some v → (v < 0 ∨ 100 < v) →
      (collect_system_metrics store c m d now).1.cpu = 0) ∧
    (∀ v, c = some v → 0 ≤ v → v ≤ 100 →
      (collect_system_metrics store c m d now).1.cpu = v) ∧
    (m = none → (collect_system_metrics store c m d now).1.memory = 0) ∧
    (∀ v, m = some v → (v < 0 ∨ 100 < v) →
      (collect_system_metrics store c m d now).1.memory = 0) ∧
    (∀ v, m = some v → 0 ≤ v → v ≤ 100 →
      (collect_system_metrics store c m d now).1.memory = v) ∧
    (d = none → (collect_system_metrics store c m d now).1.disk = 0) ∧
    (∀ v, d = some v → (v < 0 ∨ 100 < v) →
      (collect_system_metrics store c m d now).1.disk = 0) ∧
    (∀ v, d = some v → 0 ≤ v → v ≤ 100 →
      (collect_system_metrics store c m d now).1.disk = v) := by
  refine ⟨rfl, by simp [collect_system_metrics], rfl, ?_, ?_, ?_, ?_, ?_, ?_,
    ?_, ?_, ?_⟩
  · intro h; subst h; rfl
  · intro v h hr; subst h
    show (if v < 0 ∨ 100 < v then (0:ℚ) else v) = 0
    rw [if_pos hr]
  · intro v h h0 h1; subst h
    show (if v < 0 ∨ 100 < v then (0:ℚ) else v) = v
    rw [if_neg (not_or.mpr ⟨not_lt.mpr h0, not_lt.mpr h1⟩)]
  · intro h; subst h; rfl
  · intro v h hr; subst h
    show (if v < 0 ∨ 100 < v then (0:ℚ) else v) = 0
    rw [if_pos hr]
  · intro v h h0 h1; subst h
    show (if v < 0 ∨ 100 < v then (0:ℚ) else v) = v
    rw [if_neg (not_or.mpr ⟨not_lt.mpr h0, not_lt.mpr h1⟩)]
  · intro h; subst h; rfl
  · intro v h hr; subst h
    show (if v < 0 ∨ 100 < v then (0:ℚ) else v) = 0
    rw [if_pos hr]
  · intro v h h0 h1; subst h
    show (if v < 0 ∨ 100 < v then (0:ℚ) else v) = v
    rw [if_neg (not_or.mpr ⟨not_lt.mpr h0, not_lt.mpr h1⟩)]

/-- C6, witness: with a raising cpu read, an out-of-range memory read
(150) and a healthy disk read (42), the collection still stores three
rows and reports `cpu = 0`, `memory = 0`, `disk = 42`. -/
theorem C6_witness :
    (collect_system_metrics [] none (some 150) (some 42) 0).1.cpu = 0 ∧
    (collect_system_metrics [] none (some 150) (some 42) 0).1.memory = 0 ∧
    (collect_system_metrics [] none (some 150) (some 42) 0).1.disk = 42 ∧
    (collect_system_metrics [] none (some 150) (some 42) 0).2.length =
      List.length ([] : List SystemMetric) + 3 :=
  ⟨(C6_three_gauges [] none (some 150) (some 42) 0).2.2.2.1 rfl,
   (C6_three_gauges [] none (some 150) (some 42) 0).2.2.2.2.2.2.2.1 150 rfl
     (by decide),
   (C6_three_gauges [] none (some 150) (some 42) 0).2.2.2.2.2.2.2.2.2.2.2 42
     rfl (by decide) (by decide),
   (C6_three_gauges [] none (some 150) (some 42) 0).2.1⟩

/-- C7: `get_metrics_summary` computes the distinct pipeline-name count
over all time — it is unchanged under any other window — while the
execution totals are restricted to the window filter; and with no
executions ever recorded it yields `total_executions = 0`,
`success_rate = 0`, `pipeline_count = 0` (and a null average). -/
theorem C7_summary_asymmetry (execs : List PipelineExecution)
    (now now2 : ℤ) (days days2 : ℕ) :
    ((get_metrics_summary execs now days).pipeline_count =
       (get_metrics_summary execs now2 days2).pipeline_count) ∧
    ((get_metrics_summary execs now days).pipeline_count =
       (distinctNames execs).length) ∧
    ((get_metrics_summary execs now days).total_executions =
       (execs.filter (inWindow now days)).length) ∧
    ((get_metrics_summary execs now days).success_count =
       (execs.filter (fun e => inWindow now days e && e.status == "success")).length) ∧
    (get_metrics_summary [] now days =
       { total_executions := 0, success_count := 0, success_rate := 0,
         avg_duration_seconds := none, pipeline_count := 0,
         period_days := days }) := by
  refine ⟨rfl, rfl, rfl, rfl, ?_⟩
  simp [get_metrics_summary, distinctNames, pyRound2_zero]

/-- C8: `get_pipeline_executions` is a pure read — it returns the store
unchanged, a second call with identical arguments and no intervening
write returns the identical ordered result, and the result is ordered by
start time descending. -/
theorem C8_idempotent_reads (store : List PipelineExecution)
    (name : String) (now : ℤ) (days limit : ℕ) :
    ((get_pipeline_executions store name now days limit).2 = store) ∧
    ((get_pipeline_executions
        ((get_pipeline_executions store name now days limit).2)
        name now days limit).1 =
      (get_pipeline_executions store name now days limit).1) ∧
    List.Pairwise (fun a b => b.start_time ≤ a.start_time)
      ((get_pipeline_executions store name now days limit).1) := by
  refine ⟨rfl, rfl, ?_⟩
  have hsorted : List.Pairwise startDesc
      (List.insertionSort startDesc
        (store.filter (fun e => e.pipeline_name == name && inWindow now days e))) :=
    List.sorted_insertionSort startDesc _
  have htake := hsorted.sublist (List.take_sublist limit _)
  exact htake.map _ (fun a b h => h)

/-- Helper: the common average-then-Python-truthiness pattern of
routes.py lines 114 and 375 yields `None` whenever every averaged
duration is zero — both on an empty row set (SQL `AVG` is `NULL`) and on
an all-zero row set (`float(0.0)` is falsy). -/
theorem avg_match_zero (ds : List ℤ) (hds : ∀ x ∈ ds, x = 0) :
    (match (if ds.isEmpty then none
            else some ((ds.sum : ℚ) / (ds.length : ℚ))) with
     | none => none
     | some v => if v = 0 then none else some v) = (none : Option ℚ) := by
  cases ds with
  | nil => rfl
  | cons a tl =>
    have hsum : (a :: tl).sum = 0 := List.sum_eq_zero hds
    simp only [List.isEmpty_cons, Bool.false_eq_true, if_false, hsum]
    norm_num

/-- C9: when every relevant execution in the window has duration exactly
0 (so the computed average is 0.0 or `NULL`), both `pipelineStatsFor`
and `get_metrics_summary` report the average as null, because the falsy
float `0.0` is mapped to `None` — null therefore does not distinguish
an absent average from a zero average. -/
theorem C9_zero_avg_maps_to_null (execs : List PipelineExecution)
    (now : ℤ) (days : ℕ) (name : String)
    (hall : ∀ e ∈ execs, e.pipeline_name = name → inWindow now days e = true →
        e.duration_seconds.getD 0 = 0)
    (hall2 : ∀ e ∈ execs, inWindow now days e = true → e.status = "success" →
        e.duration_seconds.getD 0 = 0) :
    (pipelineStatsFor execs now days name).avg_duration_seconds = none ∧
    (get_metrics_summary execs now days).avg_duration_seconds = none := by
  constructor
  · refine avg_match_zero _ ?_
    intro x hx
    rcases List.mem_filterMap.mp hx with ⟨e, he, hdur⟩
    rcases List.mem_filter.mp he with ⟨hein, hpred⟩
    simp only [Bool.and_eq_true, beq_iff_eq] at hpred
    have h0 := hall e hein hpred.1 hpred.2
    rw [hdur, Option.getD_some] at h0
    exact h0
  · refine avg_match_zero _ ?_
    intro x hx
    rcases List.mem_filterMap.mp hx with ⟨e, he, hdur⟩
    rcases List.mem_filter.mp he with ⟨hein, hpred⟩
    simp only [Bool.and_eq_true, beq_iff_eq] at hpred
    have h0 := hall2 e hein hpred.1 hpred.2
    rw [hdur, Option.getD_some] at h0
    exact h0

/-- C9, witness: a store holding one windowed successful execution with
duration exactly 0 seconds yields a null average in both the
per-pipeline stats and the summary, despite the average being 0.0,
not absent. -/
theorem C9_witness :
    (pipelineStatsFor [⟨1, "p", "success", 10, some 10, some 0, 0, none⟩]
        604800 7 "p").avg_duration_seconds = none ∧
    (get_metrics_summary [⟨1, "p", "success", 10, some 10, some 0, 0, none⟩]
        604800 7).avg_duration_seconds = none :=
  C9_zero_avg_maps_to_null
    [⟨1, "p", "success", 10, some 10, some 0, 0, none⟩] 604800 7 "p"
    (by decide) (by decide)
